import Mathlib

/-!
Verification of the Finance2 bank-statement reporting pipeline.

The definitions below are a shallow embedding of the core pipeline of
`src/main.py` (duplicated in `src/app.py`): per-sheet normalization
(`processar_extratos_bi`), movement classification
(`classificar_movimentacao`), categorization
(`criar_categorias_automaticas`), and the grouped aggregates consumed by
the HTML report (`criar_dashboard_html_bi`) and the Excel export
(`exportar_resumos_excel_bi`).  Monetary values are modelled as `Int`
(signed currency amounts); pandas missing values are modelled with
`Option`; Python string operations are modelled on character lists.
-/

namespace Finance2

/-- ASCII lower-casing of one character, as Python `str.lower` acts on the
ASCII range (accented characters are left unchanged in this model). -/
def lowerChar (c : Char) : Char :=
  if 65 ≤ c.toNat ∧ c.toNat ≤ 90 then Char.ofNat (c.toNat + 32) else c

/-- ASCII upper-casing of one character, as Python `str.upper` acts on the
ASCII range (accented characters are left unchanged in this model). -/
def upperChar (c : Char) : Char :=
  if 97 ≤ c.toNat ∧ c.toNat ≤ 122 then Char.ofNat (c.toNat - 32) else c

/-- Python `s.lower()` (ASCII fragment). -/
def pyLower (s : String) : String := ⟨s.data.map lowerChar⟩

/-- Python `s.upper()` (ASCII fragment). -/
def pyUpper (s : String) : String := ⟨s.data.map upperChar⟩

/-- Whitespace characters recognised by Python `str.strip`. -/
def isWS (c : Char) : Bool := c == ' ' || c == '\t' || c == '\n' || c == '\r'

/-- Python `s.strip()`. -/
def pyStrip (s : String) : String :=
  ⟨((s.data.dropWhile isWS).reverse.dropWhile isWS).reverse⟩

/-- Does the character list begin with the given needle. -/
def startsWithL : List Char → List Char → Bool
  | [], _ => true
  | _ :: _, [] => false
  | a :: as, b :: bs => a == b && startsWithL as bs

/-- Does the needle occur as a contiguous run inside the haystack. -/
def containsL (needle : List Char) : List Char → Bool
  | [] => startsWithL needle []
  | c :: t => startsWithL needle (c :: t) || containsL needle t

/-- Python `needle in haystack` on strings. -/
def containsStr (haystack needle : String) : Bool := containsL needle.data haystack.data

/-- Movement classifier `classificar_movimentacao` from src/main.py lines 56-62
(duplicated at src/app.py lines 203-209): a transaction is an expense when its
type text contains "enviado", or when its value is negative and the text does
not contain "recebido"; otherwise it is income when the text contains
"recebido" or the value is positive; otherwise it is "Outro". -/
def classificar_movimentacao (tipo : String) (valor : Int) : String :=
  if containsStr (pyLower tipo) "enviado" ∨
      (valor < 0 ∧ ¬ containsStr (pyLower tipo) "recebido") then
    "Gasto"
  else if containsStr (pyLower tipo) "recebido" ∨ valor > 0 then
    "Receita"
  else
    "Outro"

/-- The five-rule decision procedure exactly as the spec words it, with the
bilingual keyword pairs "sent"/"enviado" and "received"/"recebido"
(spec section 4.2). -/
def movementTypeSpec (tipo : String) (valor : Int) : String :=
  if containsStr (pyLower tipo) "sent" ∨ containsStr (pyLower tipo) "enviado" then
    "Gasto"
  else if valor < 0 ∧
      ¬ (containsStr (pyLower tipo) "received" ∨ containsStr (pyLower tipo) "recebido") then
    "Gasto"
  else if containsStr (pyLower tipo) "received" ∨ containsStr (pyLower tipo) "recebido" then
    "Receita"
  else if valor > 0 then
    "Receita"
  else
    "Outro"

/-- The five-rule procedure amended to the keywords the code actually tests,
namely only the Portuguese "enviado" and "recebido". -/
def movementTypeAmended (tipo : String) (valor : Int) : String :=
  if containsStr (pyLower tipo) "enviado" then
    "Gasto"
  else if valor < 0 ∧ ¬ containsStr (pyLower tipo) "recebido" then
    "Gasto"
  else if containsStr (pyLower tipo) "recebido" then
    "Receita"
  else if valor > 0 then
    "Receita"
  else
    "Outro"

/-- C1 counterexample: the spec's five-rule procedure classifies a row whose
type text contains "sent" as an expense, but the code classifies the type text
"sent" with value 0 as "Outro" (it never tests the English keywords), and a
negative-valued row whose text contains "received" as income, while the code
makes it an expense. -/
theorem c1_counterexample :
    classificar_movimentacao "sent" 0 = "Outro" ∧
    movementTypeSpec "sent" 0 = "Gasto" ∧
    classificar_movimentacao "received" (-10) = "Gasto" ∧
    movementTypeSpec "received" (-10) = "Receita" := by decide

/-- C1 (amended): the code's classifier agrees with the five-rule decision
procedure everywhere, once the keyword sets are restricted to the Portuguese
words "enviado" (rule 1) and "recebido" (rules 2 and 3) actually tested by
the source. -/
theorem c1_movement_rules (tipo : String) (valor : Int) :
    classificar_movimentacao tipo valor = movementTypeAmended tipo valor := by
  unfold classificar_movimentacao movementTypeAmended
  split_ifs <;> first | rfl | tauto

/-- C2 counterexample: the claim's closing sentence, read as stated, says any
negative-valued row whose type text contains "recebido" is classified income;
the type text "recebido enviado" with value -50 contains "recebido", yet the
code classifies it "Gasto" because rule 1 ("enviado") fires first. -/
theorem c2_counterexample :
    ((-50 : Int) < 0) ∧
    containsStr (pyLower "recebido enviado") "recebido" = true ∧
    classificar_movimentacao "recebido enviado" (-50) = "Gasto" ∧
    classificar_movimentacao "recebido enviado" (-50) ≠ "Receita" := by decide

/-- C2 (amended): the classifier is a deterministic function whose value on
the five cited inputs is as claimed, and a negative value whose type text
contains "recebido" but not "enviado" is classified income — text wins over
sign except when the expense keyword "enviado" is also present. -/
theorem c2_classifier_values :
    classificar_movimentacao "recebido" (-50) = "Receita" ∧
    classificar_movimentacao "enviado" 30 = "Gasto" ∧
    classificar_movimentacao "" (-10) = "Gasto" ∧
    classificar_movimentacao "" 10 = "Receita" ∧
    classificar_movimentacao "" 0 = "Outro" ∧
    ∀ (tipo : String) (valor : Int), valor < 0 →
      containsStr (pyLower tipo) "recebido" = true →
      containsStr (pyLower tipo) "enviado" = false →
      classificar_movimentacao tipo valor = "Receita" := by
  refine ⟨by decide, by decide, by decide, by decide, by decide, ?_⟩
  intro tipo valor _ hrec henv
  unfold classificar_movimentacao
  rw [if_neg, if_pos]
  · exact Or.inl hrec
  · simp [henv, hrec]

/-- C2 witness: the amended general statement applied at the concrete input
("recebido", -50). -/
theorem c2_classifier_values_witness :
    classificar_movimentacao "recebido" (-50) = "Receita" :=
  c2_classifier_values.2.2.2.2.2 "recebido" (-50) (by decide) (by decide) (by decide)

/-- Python `str()` of a payee cell: a missing (pandas NaN) payee prints as
the text "nan"; a present payee is its own text. -/
def pyStr : Option String → String
  | none => "nan"
  | some s => s

/-- The fixed keyword table `categorias` from `criar_categorias_automaticas`
in src/main.py lines 83-96 (duplicated in src/app.py lines 230-243),
reproduced verbatim in insertion order. -/
def categorias : List (String × List String) := [
  ("Educação", ["COLEGIO", "ESCOLA", "FACULDADE", "HEBE MARSIGLIA"]),
  ("Alimentação", ["ZAFFARI", "ATACADÃO", "SUPERMERCADO", "BK BRASIL", "IFOOD", "COMERCIAL"]),
  ("Serviços Públicos", ["CIA RIOGRANDENSE", "CIA ESTADUAL", "SANEMEN", "ENERGIA", "AGUA"]),
  ("Transporte", ["UBER", "TRANSPESSOAL", "BUS2", "ESTACIONAMENTO", "REK PARKING"]),
  ("Saúde", ["FARMÁCIA", "MEDICAMENTOS", "BRAIR", "PLANO DE SAÚDE"]),
  ("Compras Online", ["SHOPEE", "AMERICANAS", "NETSHOES", "MERCADO LIVRE"]),
  ("Serviços Financeiros", ["SERASA", "OPP SERVICOS", "FINANCEIRO", "BANCO", "ITAU"]),
  ("Família", ["MAURICIO BENITES", "DEBORA APARECIDA", "SELMA FURTADO", "GISELE BORGES", "JOÃO VITOR"]),
  ("Lazer", ["CROSS EXPERIENCE", "ACADEMIA", "CINEMA", "RESTAURANTE"]),
  ("Impostos/Taxas", ["IPVA", "SEFAZ", "DETRAN", "GAD/E", "IMPOSTO"]),
  ("Telecomunicações", ["CLARO", "TELEFONE", "INTERNET"]),
  ("Outros", [])]

/-- The nested loop of `classificar_categoria`: the first category, in list
order, one of whose keywords occurs in the text wins; otherwise "Outros". -/
def firstCategory : List (String × List String) → String → String
  | [], _ => "Outros"
  | (cat, palavras) :: rest, u =>
    if palavras.any (fun palavra => containsStr u palavra) then cat
    else firstCategory rest u

/-- Category assignment `classificar_categoria` from src/main.py lines
98-104 (duplicated at src/app.py lines 245-251): the payee is passed
through Python `str()` and upper-cased, then matched against `categorias`. -/
def classificar_categoria (destinatario : Option String) : String :=
  firstCategory categorias (pyUpper (pyStr destinatario))

/-- `firstCategory` returns the first entry found by `List.find?` under the
same keyword-containment predicate. -/
theorem firstCategory_eq_find (cats : List (String × List String)) (u : String) :
    firstCategory cats u =
      (match cats.find? (fun cp => cp.2.any (fun palavra => containsStr u palavra)) with
       | some cp => cp.1
       | none => "Outros") := by
  induction cats with
  | nil => rfl
  | cons cp rest ih =>
    rcases cp with ⟨cat, palavras⟩
    cases h : palavras.any (fun palavra => containsStr u palavra) with
    | true => simp [firstCategory, List.find?, h]
    | false => simp [firstCategory, List.find?, h, ih]

/-- C5: the assigned category is the first category, in the fixed mapping's
insertion order, one of whose keyword substrings occurs in the upper-cased
payee text (stated via `List.find?`); "SUPERMERCADO ZAFFARI" gets
"Alimentação"; "DESCONHECIDO LTDA" gets "Outros"; a missing or blank payee
gets "Outros" (the missing payee is coerced by Python `str()` to "nan",
whose upper-casing "NAN" contains no keyword of the table, so it falls
through exactly as an empty string would). -/
theorem c5_categorizer :
    (∀ d : Option String,
       classificar_categoria d =
         (match categorias.find?
             (fun cp => cp.2.any (fun palavra => containsStr (pyUpper (pyStr d)) palavra)) with
          | some cp => cp.1
          | none => "Outros")) ∧
    classificar_categoria (some "SUPERMERCADO ZAFFARI") = "Alimentação" ∧
    classificar_categoria (some "DESCONHECIDO LTDA") = "Outros" ∧
    classificar_categoria none = "Outros" ∧
    classificar_categoria (some "") = "Outros" ∧
    (categorias.all (fun cp => cp.2.all (fun palavra => !containsStr "NAN" palavra))) = true := by
  refine ⟨?_, by decide, by decide, by decide, by decide, by decide⟩
  intro d
  exact firstCategory_eq_find categorias (pyUpper (pyStr d))

/-- One row of the unified table produced by `processar_extratos_bi`:
the trimmed-later type text, the signed value, the optional payee text
(`destinatário/pagador`), and the year and month extracted from the parsed
date (these determine the `mes_ano_period` grouping key). -/
structure Row where
  tipo : String
  valor : Int
  destinatario : Option String
  ano : Int
  mes : Nat
deriving DecidableEq

/-- The derived `tipo_movimentacao` column: classification of the stripped
type text together with the value (src/main.py lines 53 and 64-66). -/
def tipo_movimentacao (r : Row) : String :=
  classificar_movimentacao (pyStrip r.tipo) r.valor

/-- The derived `valor_absoluto` column (src/main.py line 69). -/
def valor_absoluto (r : Row) : Int := |r.valor|

/-- The derived `categoria` column (src/main.py line 106). -/
def categoria (r : Row) : String := classificar_categoria r.destinatario

/-- The expense subset `gastos` (src/main.py line 114). -/
def gastosOf (rows : List Row) : List Row :=
  rows.filter (fun r => tipo_movimentacao r == "Gasto")

/-- The income subset `receitas` (src/main.py line 115). -/
def receitasOf (rows : List Row) : List Row :=
  rows.filter (fun r => tipo_movimentacao r == "Receita")

/-- Sum of the `valor_absoluto` column over a set of rows. -/
def sumAbs (rs : List Row) : Int := (rs.map valor_absoluto).sum

/-- Add one keyed value into a list of per-key running sums, keeping the
first-occurrence order of keys. -/
def addTo : List (String × Int) → String → Int → List (String × Int)
  | [], k, v => [(k, v)]
  | (k0, v0) :: rest, k, v =>
    if k0 == k then (k0, v0 + v) :: rest else (k0, v0) :: addTo rest k v

/-- pandas `groupby(key)[col].sum()` on a list of (key, value) pairs. -/
def groupSum (l : List (String × Int)) : List (String × Int) :=
  l.foldl (fun acc kv => addTo acc kv.1 kv.2) []

/-- Stable descending insertion by the summed value. -/
def insertDesc (x : String × Int) : List (String × Int) → List (String × Int)
  | [] => [x]
  | y :: ys => if x.2 ≤ y.2 then y :: insertDesc x ys else x :: y :: ys

/-- Stable descending sort by the summed value, modelling both
`sort_values(ascending=False)` and the ordering of `nlargest`. -/
def sortDesc : List (String × Int) → List (String × Int)
  | [] => []
  | x :: xs => insertDesc x (sortDesc xs)

/-- pandas `Series.nlargest(n)`: the n largest values in descending order,
ties kept in their prior order. -/
def nlargest (n : Nat) (l : List (String × Int)) : List (String × Int) :=
  (sortDesc l).take n

/-- The (payee, abs value) pairs of a set of rows; rows with a missing payee
are dropped, as pandas `groupby` drops NaN keys. -/
def destPairs (rs : List Row) : List (String × Int) :=
  rs.filterMap (fun r => r.destinatario.map (fun d => (d, valor_absoluto r)))

/-- `total_gastos` (src/main.py line 118). -/
def total_gastos (rows : List Row) : Int := sumAbs (gastosOf rows)

/-- `total_receitas` (src/main.py line 119). -/
def total_receitas (rows : List Row) : Int := sumAbs (receitasOf rows)

/-- `gastos_por_categoria` (src/main.py line 123): abs values of expense rows
summed by category, sorted descending. -/
def gastos_por_categoria (rows : List Row) : List (String × Int) :=
  sortDesc (groupSum ((gastosOf rows).map (fun r => (categoria r, valor_absoluto r))))

/-- `principais_destinos` (src/main.py line 126): top 15 expense payees. -/
def principais_destinos (rows : List Row) : List (String × Int) :=
  nlargest 15 (groupSum (destPairs (gastosOf rows)))

/-- `principais_fontes` (src/main.py line 129): top 15 income payers. -/
def principais_fontes (rows : List Row) : List (String × Int) :=
  nlargest 15 (groupSum (destPairs (receitasOf rows)))

/-- The workbook sheet "Principais Destinatários" (src/main.py line 351):
top 50 expense payees. -/
def top50_destinatarios (rows : List Row) : List (String × Int) :=
  nlargest 50 (groupSum (destPairs (gastosOf rows)))

/-- The workbook sheet "Fontes Pagadoras" (src/main.py line 355):
top 50 income payers. -/
def top50_fontes (rows : List Row) : List (String × Int) :=
  nlargest 50 (groupSum (destPairs (receitasOf rows)))

/-- Every element of `insertDesc x l` is `x` or an element of `l`. -/
theorem mem_insertDesc {x y : String × Int} {l : List (String × Int)}
    (h : y ∈ insertDesc x l) : y = x ∨ y ∈ l := by
  induction l with
  | nil => simpa [insertDesc] using h
  | cons z zs ih =>
    by_cases hc : x.2 ≤ z.2
    · simp only [insertDesc, if_pos hc, List.mem_cons] at h
      rcases h with h | h
      · exact Or.inr (by simp [h])
      · rcases ih h with h | h
        · exact Or.inl h
        · exact Or.inr (by simp [h])
    · simp only [insertDesc, if_neg hc, List.mem_cons] at h
      rcases h with h | h
      · exact Or.inl h
      · exact Or.inr (by simpa using h)

/-- Descending insertion preserves the descending pairwise order. -/
theorem pairwise_insertDesc (x : String × Int) (l : List (String × Int))
    (h : List.Pairwise (fun a b => b.2 ≤ a.2) l) :
    List.Pairwise (fun a b => b.2 ≤ a.2) (insertDesc x l) := by
  induction l with
  | nil => simp [insertDesc]
  | cons y ys ih =>
    rcases List.pairwise_cons.mp h with ⟨hy, hys⟩
    by_cases hc : x.2 ≤ y.2
    · simp only [insertDesc, if_pos hc]
      refine List.Pairwise.cons ?_ (ih hys)
      intro z hz
      rcases mem_insertDesc hz with rfl | hz2
      · exact hc
      · exact hy z hz2
    · simp only [insertDesc, if_neg hc]
      refine List.Pairwise.cons ?_ (List.Pairwise.cons hy hys)
      intro z hz
      rcases List.mem_cons.mp hz with rfl | hz2
      · omega
      · have := hy z hz2
        omega

/-- The descending sort is pairwise descending in its values. -/
theorem pairwise_sortDesc (l : List (String × Int)) :
    List.Pairwise (fun a b => b.2 ≤ a.2) (sortDesc l) := by
  induction l with
  | nil => simp [sortDesc]
  | cons x xs ih => exact pairwise_insertDesc x _ ih

/-- `nlargest` output is pairwise descending in its values. -/
theorem pairwise_nlargest (n : Nat) (l : List (String × Int)) :
    List.Pairwise (fun a b => b.2 ≤ a.2) (nlargest n l) :=
  (pairwise_sortDesc l).sublist (List.take_sublist n (sortDesc l))

/-- `nlargest n` never returns more than `n` entries. -/
theorem length_nlargest_le (n : Nat) (l : List (String × Int)) :
    (nlargest n l).length ≤ n := by
  unfold nlargest
  rw [List.length_take]
  omega

/-- C6 counterexample: the claim also covers the workbook's payee sheet, but
that sheet is built with `nlargest(50)` (src/main.py line 351): sixteen
expense rows with sixteen distinct payees produce sixteen entries, more than
the fifteen the claim allows. -/
theorem c6_counterexample :
    (top50_destinatarios ((List.range 16).map (fun i =>
        ⟨"Pix enviado", -(100 + Int.ofNat i), some (String.mk [Char.ofNat (65 + i)]), 2024, 1⟩))).length
      = 16 := by decide

/-- C6 (amended): the chart report's top-payee and top-payer aggregates never
exceed 15 entries, the workbook's payee and payer sheets never exceed 50
entries, and all four are sorted descending by summed absolute value (the
sort is a stable insertion sort, so exact ties keep their prior order and
the output is deterministic). -/
theorem c6_top_lists (rows : List Row) :
    (principais_destinos rows).length ≤ 15 ∧
    List.Pairwise (fun a b => b.2 ≤ a.2) (principais_destinos rows) ∧
    (principais_fontes rows).length ≤ 15 ∧
    List.Pairwise (fun a b => b.2 ≤ a.2) (principais_fontes rows) ∧
    (top50_destinatarios rows).length ≤ 50 ∧
    List.Pairwise (fun a b => b.2 ≤ a.2) (top50_destinatarios rows) ∧
    (top50_fontes rows).length ≤ 50 ∧
    List.Pairwise (fun a b => b.2 ≤ a.2) (top50_fontes rows) :=
  ⟨length_nlargest_le _ _, pairwise_nlargest _ _,
   length_nlargest_le _ _, pairwise_nlargest _ _,
   length_nlargest_le _ _, pairwise_nlargest _ _,
   length_nlargest_le _ _, pairwise_nlargest _ _⟩

/-- Sum of the values of a keyed list. -/
def sumSnd (l : List (String × Int)) : Int := (l.map Prod.snd).sum

/-- Adding one keyed value raises the total by that value. -/
theorem sumSnd_addTo (acc : List (String × Int)) (k : String) (v : Int) :
    sumSnd (addTo acc k v) = sumSnd acc + v := by
  induction acc with
  | nil => simp [addTo, sumSnd]
  | cons kv rest ih =>
    rcases kv with ⟨k0, v0⟩
    by_cases h : k0 == k
    · simp [addTo, h, sumSnd]
      ring
    · simp [addTo, h, sumSnd] at *
      omega

/-- Folding `addTo` over a list adds the list's total to the accumulator's. -/
theorem sumSnd_foldl_addTo (l : List (String × Int)) (acc : List (String × Int)) :
    sumSnd (l.foldl (fun acc kv => addTo acc kv.1 kv.2) acc) = sumSnd acc + sumSnd l := by
  induction l generalizing acc with
  | nil => simp [sumSnd]
  | cons kv rest ih =>
    simp only [List.foldl_cons, ih, sumSnd_addTo]
    simp [sumSnd]
    ring

/-- Grouping by key preserves the grand total. -/
theorem sumSnd_groupSum (l : List (String × Int)) : sumSnd (groupSum l) = sumSnd l := by
  unfold groupSum
  rw [sumSnd_foldl_addTo]
  simp [sumSnd]

/-- Descending insertion preserves the grand total. -/
theorem sumSnd_insertDesc (x : String × Int) (l : List (String × Int)) :
    sumSnd (insertDesc x l) = x.2 + sumSnd l := by
  induction l with
  | nil => simp [insertDesc, sumSnd]
  | cons y ys ih =>
    by_cases h : x.2 ≤ y.2
    · simp only [insertDesc, if_pos h, sumSnd, List.map_cons, List.sum_cons] at *
      omega
    · simp [insertDesc, h, sumSnd]

/-- Sorting preserves the grand total. -/
theorem sumSnd_sortDesc (l : List (String × Int)) : sumSnd (sortDesc l) = sumSnd l := by
  induction l with
  | nil => rfl
  | cons x xs ih =>
    show sumSnd (insertDesc x (sortDesc xs)) = sumSnd (x :: xs)
    rw [sumSnd_insertDesc, ih]
    simp [sumSnd]

/-- C9: the per-category expense totals are a partition of the expense grand
total — summing the `gastos_por_categoria` aggregate over all categories
gives exactly `total_gastos`, the sum of `valor_absoluto` over all expense
rows. -/
theorem c9_category_partition (rows : List Row) :
    sumSnd (gastos_por_categoria rows) = total_gastos rows := by
  unfold gastos_por_categoria total_gastos
  rw [sumSnd_sortDesc, sumSnd_groupSum]
  unfold sumSnd sumAbs
  rw [List.map_map]
  rfl

/-- The HTML report builder `criar_dashboard_html_bi` (src/main.py lines
109-332), abstracted to its failure behaviour: the aggregates are computed
as total functions; the page body then formats the date range (which raises
on an empty table) and the three headline insights, each of which indexes
the first entry of an aggregate (`.index[0]` / `.iloc[0]`, src/main.py lines
312-314) and raises IndexError when that aggregate is empty.  The html text
itself is abstracted away; `.ok` means the file is written. -/
def criar_dashboard_html_bi (rows : List Row) : Except String Unit :=
  if rows.isEmpty then
    .error "strftime on an empty date range"
  else if (principais_destinos rows).isEmpty || (principais_fontes rows).isEmpty ||
      (gastos_por_categoria rows).isEmpty then
    .error "IndexError: index 0 is out of bounds"
  else
    .ok ()

/-- C7 counterexample: the claim says an aggregate step over an empty Income
subset fails with a specific AggregationError; in the code the aggregates
are total — on a table with one expense row and no income rows, the income
total evaluates to the silent zero 0 and the top-payer aggregate to the
empty list, and no error is raised at any aggregate step. -/
theorem c7_counterexample :
    receitasOf [⟨"Pix enviado", -10, some "LOJA", 2024, 1⟩] = [] ∧
    total_receitas [⟨"Pix enviado", -10, some "LOJA", 2024, 1⟩] = 0 ∧
    principais_fontes [⟨"Pix enviado", -10, some "LOJA", 2024, 1⟩] = [] := by decide

/-- C7 (amended): no aggregate step fails on an empty Expense or Income
subset — the totals evaluate to 0 and the top lists to empty — but report
generation still aborts whenever either subset is empty, because the
insights section of the page indexes the first entry of the top-payee,
top-payer and category aggregates (an IndexError, not a specific
aggregation error). -/
theorem c7_empty_subset_behaviour (rows : List Row) :
    (receitasOf rows = [] →
       total_receitas rows = 0 ∧ principais_fontes rows = [] ∧
       criar_dashboard_html_bi rows ≠ Except.ok ()) ∧
    (gastosOf rows = [] →
       total_gastos rows = 0 ∧ principais_destinos rows = [] ∧
       criar_dashboard_html_bi rows ≠ Except.ok ()) := by
  constructor
  · intro h
    have hf : principais_fontes rows = [] := by
      simp [principais_fontes, destPairs, h, groupSum, nlargest, sortDesc]
    refine ⟨by simp [total_receitas, h, sumAbs], hf, ?_⟩
    unfold criar_dashboard_html_bi
    by_cases he : rows.isEmpty <;> simp [he, hf]
  · intro h
    have hd : principais_destinos rows = [] := by
      simp [principais_destinos, destPairs, h, groupSum, nlargest, sortDesc]
    refine ⟨by simp [total_gastos, h, sumAbs], hd, ?_⟩
    unfold criar_dashboard_html_bi
    by_cases he : rows.isEmpty <;> simp [he, hd]

/-- C7 witness: the amended statement applied to a concrete one-row table
with no income rows. -/
theorem c7_empty_subset_behaviour_witness :
    total_receitas [⟨"Pix enviado", -10, some "LOJA", 2024, 1⟩] = 0 ∧
    principais_fontes [⟨"Pix enviado", -10, some "LOJA", 2024, 1⟩] = [] ∧
    criar_dashboard_html_bi [⟨"Pix enviado", -10, some "LOJA", 2024, 1⟩] ≠ Except.ok () :=
  (c7_empty_subset_behaviour [⟨"Pix enviado", -10, some "LOJA", 2024, 1⟩]).1 (by decide)

/-- Does the unified table contain any row of the given movement type — that
is, does the pivoted monthly summary have that column
(src/main.py line 342 tests column presence). -/
def hasMov (rows : List Row) (mt : String) : Bool :=
  rows.any (fun r => tipo_movimentacao r == mt)

/-- One cell of the pivoted `resumo_mensal` (src/main.py line 341): the sum
of `valor_absoluto` over the rows of the given (year, month) group and
movement type; `none` models the NaN left by `unstack` for an absent
combination. -/
def cellSum (rows : List Row) (k : Int × Nat) (mt : String) : Option Int :=
  let g := rows.filter (fun r =>
    r.ano == k.1 && r.mes == k.2 && tipo_movimentacao r == mt)
  if g.isEmpty then none else some (sumAbs g)

/-- The `Saldo` column of `resumo_mensal` (src/main.py lines 342-343): added
only when both the "Gasto" and "Receita" columns exist, and computed cell by
cell as Receita minus Gasto with NaN propagation. -/
def saldoCell (rows : List Row) (k : Int × Nat) : Option Int :=
  if hasMov rows "Gasto" && hasMov rows "Receita" then
    match cellSum rows k "Receita", cellSum rows k "Gasto" with
    | some receita, some gasto => some (receita - gasto)
    | _, _ => none
  else none

/-- C8: whenever both the income ("Receita") and expense ("Gasto") columns
exist in the monthly summary, the balance column equals the income cell
minus the expense cell for every (year, month) period, with the pandas NaN
propagation modelled by `Option`: the balance is present exactly where both
cells are, and then equals their difference. -/
theorem c8_saldo (rows : List Row) (k : Int × Nat)
    (hg : hasMov rows "Gasto" = true) (hr : hasMov rows "Receita" = true) :
    saldoCell rows k =
      (cellSum rows k "Receita").bind
        (fun receita => (cellSum rows k "Gasto").map (fun gasto => receita - gasto)) := by
  unfold saldoCell
  rw [hg, hr]
  cases cellSum rows k "Receita" <;> cases cellSum rows k "Gasto" <;> simp

/-- C8 witness: on a table with one income row of 100 and one expense row of
-40 in 2024-01, the balance cell for (2024, 1) is 100 - 40 = 60. -/
theorem c8_saldo_witness :
    saldoCell [⟨"Pix recebido", 100, some "EMPRESA", 2024, 1⟩,
               ⟨"Pix enviado", -40, some "LOJA", 2024, 1⟩] (2024, 1) = some 60 := by
  rw [c8_saldo [⟨"Pix recebido", 100, some "EMPRESA", 2024, 1⟩,
                ⟨"Pix enviado", -40, some "LOJA", 2024, 1⟩] (2024, 1)
        (by decide) (by decide)]
  decide

/-- One raw sheet of the workbook: its name, raw column headers, its data
rows (abstracted directly as unified-table rows — the properties below
depend only on which rows survive and on their count; for a sheet lacking a
value or type column, the corresponding cells of its rows are NaN in the
real unified table), whether `pd.read_excel` succeeds on it, and whether
`pd.to_datetime` succeeds on its date column. -/
structure Sheet where
  name : String
  cols : List String
  rows : List Row
  readOk : Bool
  dateOk : Bool
deriving DecidableEq

/-- Column-name normalization (src/main.py line 23):
`col.lower().strip()` for every header. -/
def normalizeCols (cols : List String) : List String :=
  cols.map (fun c => pyStrip (pyLower c))

/-- The value-column renaming of src/main.py lines 26-33: if a column is
exactly "valor (r$)" it is renamed to "valor"; otherwise, if "valor" is not
already a column, the first column whose name contains "valor" is renamed
(pandas `rename` maps every column equal to that name). -/
def renameValor (cols : List String) : List String :=
  if cols.contains "valor (r$)" then
    cols.map (fun c => if c == "valor (r$)" then "valor" else c)
  else if cols.contains "valor" then cols
  else
    match cols.find? (fun c => containsStr (pyLower c) "valor") with
    | some c0 => cols.map (fun c => if c == c0 then "valor" else c)
    | none => cols

/-- Did the resolution steps produce a "valor" column. -/
def valorResolved (cols : List String) : Bool :=
  (renameValor cols).contains "valor"

/-- The per-sheet body of the loop in `processar_extratos_bi` (src/main.py
lines 18-45): the sheet is read, column names are normalized, the value
column is (possibly) renamed, provenance columns are added, and the date
column is parsed.  Only a read failure, a missing "data" column (a KeyError)
or an unparseable date column raise inside the `try`, and such a sheet is
skipped (`none`); otherwise the sheet's rows are kept. -/
def processSheet (s : Sheet) : Option (List Row) :=
  if s.readOk then
    if (renameValor (normalizeCols s.cols)).contains "data" && s.dateOk then
      some s.rows
    else none
  else none

/-- Sheet selection (src/main.py line 15): every sheet except the literal
name "Planilha2". -/
def abas (sheets : List Sheet) : List Sheet :=
  sheets.filter (fun s => s.name != "Planilha2")

/-- The sheets that survive the per-sheet loop (the `dados_combinados`
tables, identified by their sheet). -/
def survivingSheets (sheets : List Sheet) : List Sheet :=
  (abas sheets).filter (fun s => (processSheet s).isSome)

/-- Does some surviving sheet carry the given column after renaming — that
is, does the concatenated frame have that column (pandas `concat` takes the
union of the sheets' columns). -/
def hasColAmongSurvivors (sheets : List Sheet) (col : String) : Bool :=
  (survivingSheets sheets).any (fun s => (renameValor (normalizeCols s.cols)).contains col)

/-- `processar_extratos_bi` (src/main.py lines 9-76): process each selected
sheet and raise ValueError "Nenhuma aba válida foi encontrada" when no
sheet survived; otherwise concatenate the surviving sheets and derive the
movement, absolute-value and period columns.  The derivation reads the
unified "tipo" and "valor" columns, so it raises a KeyError when no
surviving sheet supplies that column (src/main.py line 53 for "tipo",
lines 64-69 for "valor"); when at least one surviving sheet supplies the
column, sheets lacking it still contribute all their rows, with NaN cells
in that column, and the unified table is the concatenation of every
surviving sheet's rows. -/
def processar_extratos_bi (sheets : List Sheet) : Except String (List Row) :=
  if (survivingSheets sheets).isEmpty then .error "Nenhuma aba válida foi encontrada"
  else if !hasColAmongSurvivors sheets "tipo" then .error "KeyError: tipo"
  else if !hasColAmongSurvivors sheets "valor" then .error "KeyError: valor"
  else .ok ((survivingSheets sheets).map Sheet.rows).flatten

/-- The two generated artifacts on disk; `none` means the file does not
exist, `some` holds an abstract content marker. -/
structure OutputFiles where
  dashboard : Option String
  excel : Option String
deriving DecidableEq

/-- The generation run (`gerar_dashboard` in src/app.py lines 517-547, the
same orchestration as the `__main__` block of src/main.py): process the
workbook, derive categories, write the HTML report, then write the Excel
workbook.  Any exception aborts the run before the remaining files are
written; contents are abstracted to fixed markers. -/
def gerar_dashboard (sheets : List Sheet) (fs : OutputFiles) :
    Except String Unit × OutputFiles :=
  match processar_extratos_bi sheets with
  | .error e => (.error e, fs)
  | .ok rows =>
    match criar_dashboard_html_bi rows with
    | .error e => (.error e, fs)
    | .ok _ => (.ok (), ⟨some "dashboard_financeiro_bi.html", some "resumo_financeiro_bi.xlsx"⟩)

/-- C3 counterexample: a sheet whose headers are Data, Tipo, Amount and
Destinatário/Pagador has no column qualifying as the value column under the
resolution order, yet it is not skipped: its date column parses, so the
per-sheet loop keeps it, and in a workbook where another sheet supplies the
value column the unified table ends up with both sheets' rows — two rows,
where the claim demands the value-less sheet contribute zero. -/
theorem c3_counterexample :
    valorResolved (normalizeCols ["Data", "Tipo", "Amount", "Destinatário/Pagador"]) = false ∧
    processSheet ⟨"Fevereiro", ["Data", "Tipo", "Amount", "Destinatário/Pagador"],
        [⟨"Pix enviado", -10, some "LOJA", 2024, 2⟩], true, true⟩ =
      some [⟨"Pix enviado", -10, some "LOJA", 2024, 2⟩] ∧
    (processar_extratos_bi
        [⟨"Janeiro", ["Data", "Tipo", "Valor (R$)", "Destinatário/Pagador"],
          [⟨"Pix recebido", 100, some "EMPRESA", 2024, 1⟩], true, true⟩,
         ⟨"Fevereiro", ["Data", "Tipo", "Amount", "Destinatário/Pagador"],
          [⟨"Pix enviado", -10, some "LOJA", 2024, 2⟩], true, true⟩]).toOption.map List.length =
      some 2 := by decide

/-- C3 (amended): failing to resolve a value column never causes the
claimed per-sheet skip — the resolution steps only rename columns, so a
value-less sheet that reads, has a "data" header and parseable dates is
kept by the loop and appears among the surviving sheets.  When some
surviving sheet supplies the "tipo" and "valor" columns, the unified table
is the concatenation of every surviving sheet's rows, the value-less
sheet's included (its value cells are NaN); when no surviving sheet
supplies a value column, the run does not skip-and-continue either — the
post-concatenation derivation raises a KeyError and the whole run aborts. -/
theorem c3_no_valor_not_skipped (s : Sheet) (sheets : List Sheet)
    (_hv : valorResolved (normalizeCols s.cols) = false)
    (hread : s.readOk = true)
    (hdata : (renameValor (normalizeCols s.cols)).contains "data" = true)
    (hdate : s.dateOk = true) :
    processSheet s = some s.rows ∧
    (s ∈ sheets → s.name ≠ "Planilha2" → s ∈ survivingSheets sheets) ∧
    (hasColAmongSurvivors sheets "tipo" = true →
     hasColAmongSurvivors sheets "valor" = true →
     survivingSheets sheets ≠ [] →
     processar_extratos_bi sheets =
       .ok ((survivingSheets sheets).map Sheet.rows).flatten) ∧
    (hasColAmongSurvivors sheets "valor" = false →
     ∀ rows : List Row, processar_extratos_bi sheets ≠ .ok rows) := by
  have hps : processSheet s = some s.rows := by
    unfold processSheet
    rw [hread, hdata, hdate]
    rfl
  refine ⟨hps, ?_, ?_, ?_⟩
  · intro hmem hname
    unfold survivingSheets abas
    rw [List.mem_filter, List.mem_filter]
    exact ⟨⟨hmem, by simpa using hname⟩, by rw [hps]; rfl⟩
  · intro htipo hvalor hne
    have h1 : (survivingSheets sheets).isEmpty = false := by
      cases h2 : survivingSheets sheets with
      | nil => exact absurd h2 hne
      | cons a l => rfl
    unfold processar_extratos_bi
    rw [h1, htipo, hvalor]
    rfl
  · intro hvalor rows
    unfold processar_extratos_bi
    cases h1 : (survivingSheets sheets).isEmpty with
    | true => simp
    | false =>
      cases htipo : hasColAmongSurvivors sheets "tipo" with
      | true => simp [htipo, hvalor]
      | false => simp [htipo, hvalor]

/-- C3 witness: the amended statement applied to the two-sheet workbook in
which "Janeiro" supplies the value column and "Fevereiro" lacks one; the
value-less sheet is processed and both sheets' rows reach the unified
table. -/
theorem c3_no_valor_not_skipped_witness :
    processar_extratos_bi
        [⟨"Janeiro", ["Data", "Tipo", "Valor (R$)", "Destinatário/Pagador"],
          [⟨"Pix recebido", 100, some "EMPRESA", 2024, 1⟩], true, true⟩,
         ⟨"Fevereiro", ["Data", "Tipo", "Amount", "Destinatário/Pagador"],
          [⟨"Pix enviado", -10, some "LOJA", 2024, 2⟩], true, true⟩] =
      Except.ok [⟨"Pix recebido", 100, some "EMPRESA", 2024, 1⟩,
                 ⟨"Pix enviado", -10, some "LOJA", 2024, 2⟩] := by
  have h := c3_no_valor_not_skipped
    ⟨"Fevereiro", ["Data", "Tipo", "Amount", "Destinatário/Pagador"],
     [⟨"Pix enviado", -10, some "LOJA", 2024, 2⟩], true, true⟩
    [⟨"Janeiro", ["Data", "Tipo", "Valor (R$)", "Destinatário/Pagador"],
      [⟨"Pix recebido", 100, some "EMPRESA", 2024, 1⟩], true, true⟩,
     ⟨"Fevereiro", ["Data", "Tipo", "Amount", "Destinatário/Pagador"],
      [⟨"Pix enviado", -10, some "LOJA", 2024, 2⟩], true, true⟩]
    (by decide) (by decide) (by decide) (by decide)
  rw [h.2.2.1 (by decide) (by decide) (by decide)]
  rfl

/-- If the per-sheet loop produced no table, no sheet survives. -/
theorem filter_isSome_nil_of_filterMap_nil (l : List Sheet)
    (h : l.filterMap processSheet = []) :
    l.filter (fun s => (processSheet s).isSome) = [] := by
  induction l with
  | nil => rfl
  | cons s ts ih =>
    cases hp : processSheet s with
    | some v => simp [List.filterMap_cons, hp] at h
    | none =>
      simp only [List.filterMap_cons, hp] at h
      simp [List.filter_cons, hp, ih h]

/-- C4: when no sheet survives normalization, `processar_extratos_bi` raises
ValueError ("Nenhuma aba válida foi encontrada", the NoValidDataError of the
spec), the whole generation run aborts, and the output files on disk are
exactly as before — neither the HTML report nor the summary workbook is
written or overwritten. -/
theorem c4_no_valid_data (sheets : List Sheet) (fs : OutputFiles)
    (h : (abas sheets).filterMap processSheet = []) :
    gerar_dashboard sheets fs = (.error "Nenhuma aba válida foi encontrada", fs) := by
  have hs : survivingSheets sheets = [] := by
    unfold survivingSheets
    exact filter_isSome_nil_of_filterMap_nil (abas sheets) h
  unfold gerar_dashboard processar_extratos_bi
  rw [hs]
  rfl

/-- C4 witness: a workbook holding only the placeholder sheet "Planilha2"
and a sheet that fails to read, run against pre-existing outputs; the run
fails and the pre-existing outputs survive untouched. -/
theorem c4_no_valid_data_witness :
    gerar_dashboard
        [⟨"Planilha2", ["data", "tipo", "valor"], [], true, true⟩,
         ⟨"Janeiro", ["data", "tipo", "valor"], [⟨"Pix enviado", -10, some "LOJA", 2024, 1⟩],
          false, true⟩]
        ⟨some "old dashboard", some "old workbook"⟩ =
      (.error "Nenhuma aba válida foi encontrada", ⟨some "old dashboard", some "old workbook"⟩) :=
  c4_no_valid_data _ _ (by decide)

/-- C10: the sheet loader excludes exactly the literal sheet name
"Planilha2": a sheet is selected if and only if it is in the workbook and
its name differs from "Planilha2" (so an empty or placeholder sheet under
any other name is still attempted), and the pipeline's result is unchanged
when the "Planilha2" sheets are removed from the input — they contribute no
rows to the unified table. -/
theorem c10_planilha2_exclusion (sheets : List Sheet) :
    (∀ s : Sheet, s ∈ abas sheets ↔ (s ∈ sheets ∧ s.name ≠ "Planilha2")) ∧
    processar_extratos_bi sheets =
      processar_extratos_bi (sheets.filter (fun s => s.name != "Planilha2")) := by
  constructor
  · intro s
    simp [abas, List.mem_filter]
  · have h : abas (sheets.filter (fun s => s.name != "Planilha2")) = abas sheets := by
      unfold abas
      rw [List.filter_filter]
      simp
    unfold processar_extratos_bi hasColAmongSurvivors survivingSheets
    rw [h]

end Finance2
